import Mathlib

/-!
Verification of the template-rendering mixin of Flask-Velox
(src/flask_velox/mixins/template.py).

The module defines a single class `TemplateMixin(MethodView)` with

  * a read-only property `_template` that returns `self.template`,
    converting an `AttributeError` raised by the attribute lookup into
    `NotImplementedError('template attribute is not defined')`;
  * a method `render` returning
    `render_template(self._template, **getattr(self, 'context', {}))`;
  * a method `get` returning `self.render()`.

Shallow embedding: an instance of a concrete subclass is a structure
recording the outcome of looking up the `template` attribute (a plain
value, an absent attribute, or a defined property whose body itself
raises `AttributeError` — Python's `getattr` raises `AttributeError` in
the last two cases), the optional `context` attribute, and arbitrary
further instance fields.  Context values are kept abstract in a type
parameter `V`.  The external framework function `render_template` is
modelled by a record of the call it receives, so theorems about "the
arguments passed to the framework" are statements about that record.
Methods thread the instance state explicitly so that absence of
mutation is a provable statement rather than a modelling assumption:
each primitive attribute read returns the (unchanged) instance state
alongside its result, exactly as Python attribute access on these plain
attributes does.
-/

namespace FlaskVelox

/-- Outcome of the Python attribute lookup `self.template` on a concrete
subclass instance: the attribute holds a plain value; the attribute is
absent (lookup raises `AttributeError`); or the attribute is a defined
property whose body raises `AttributeError` (lookup also raises
`AttributeError`, and Python's `hasattr` reports the attribute as not
set). -/
inductive AttrRead (α : Type) where
  | value : α → AttrRead α
  | absent : AttrRead α
  | propAttrError : AttrRead α
deriving DecidableEq, Repr

/-- Python exceptions that can arise in this module: `AttributeError`
from the `self.template` lookup, and `NotImplementedError` (with its
message) raised by `_template`. -/
inductive PyExc where
  | attributeError : PyExc
  | notImplementedError : String → PyExc
deriving DecidableEq, Repr

/-- An instance of a concrete subclass of `TemplateMixin`: the outcome
of looking up its `template` attribute, its `context` attribute when
defined (a key-value mapping with values of type `V`), and all further
instance fields, which the mixin never touches. -/
structure TemplateMixin (V : Type) where
  templateAttr : AttrRead String
  contextAttr : Option (List (String × V))
  extra : List (String × V)
deriving DecidableEq, Repr

/-- A call to the external framework's `render_template` function: the
template path positional argument and the keyword context it received
(the `**` expansion of the mapping passed by `render`). -/
structure RenderCall (V : Type) where
  template : String
  context : List (String × V)
deriving DecidableEq, Repr

/-- The external framework's template-rendering function, modelled by
the record of the call it receives: the mixin's contract is about which
arguments reach the framework, the framework's own behaviour is out of
scope. -/
def render_template {V : Type} (t : String) (c : List (String × V)) :
    RenderCall V :=
  ⟨t, c⟩

/-- Data of an inbound HTTP GET request as the framework's dispatch
layer holds it.  The source never reads the framework's request object,
so the methods receive it as an explicit ambient argument. -/
structure Request where
  params : List (String × String)
deriving DecidableEq, Repr

/-- The Python attribute lookup `self.template`: returns the value, or
raises `AttributeError` when the attribute is absent or is a property
whose body raises `AttributeError`.  Attribute access on these plain
attributes does not mutate the instance, so the state is returned
unchanged. -/
def TemplateMixin.lookupTemplate {V : Type} (self : TemplateMixin V) :
    Except PyExc String × TemplateMixin V :=
  (match self.templateAttr with
    | AttrRead.value t => Except.ok t
    | AttrRead.absent => Except.error PyExc.attributeError
    | AttrRead.propAttrError => Except.error PyExc.attributeError,
   self)

/-- The Python expression `getattr(self, 'context', {})`: the value of
the `context` attribute when defined, an empty mapping otherwise.  No
mutation, so the state is returned unchanged. -/
def TemplateMixin.getattrContext {V : Type} (self : TemplateMixin V) :
    List (String × V) × TemplateMixin V :=
  (self.contextAttr.getD [], self)

/-- The property `TemplateMixin._template`: `try: return self.template
except AttributeError: raise NotImplementedError('template attribute is
not defined')`. -/
def TemplateMixin._template {V : Type} (self : TemplateMixin V) :
    Except PyExc String × TemplateMixin V :=
  match self.lookupTemplate with
  | (Except.ok t, s) => (Except.ok t, s)
  | (Except.error e, s) =>
    match e with
    | PyExc.attributeError =>
      (Except.error
        (PyExc.notImplementedError "template attribute is not defined"), s)
    | _ => (Except.error e, s)

/-- The method `TemplateMixin.render`: `return
render_template(self._template, **getattr(self, 'context', {}))`.
Python evaluates the arguments left to right, so when `self._template`
raises, the `getattr` is never evaluated and the exception propagates. -/
def TemplateMixin.render {V : Type} (self : TemplateMixin V) :
    Except PyExc (RenderCall V) × TemplateMixin V :=
  match self._template with
  | (Except.ok t, s) =>
    match s.getattrContext with
    | (c, s2) => (Except.ok (render_template t c), s2)
  | (Except.error e, s) => (Except.error e, s)

/-- The method `TemplateMixin.get`: `return self.render()`.  The
framework's dispatch layer invokes it on an inbound GET request; the
body never reads the request object. -/
def TemplateMixin.get {V : Type} (self : TemplateMixin V)
    (req : Request) : Except PyExc (RenderCall V) × TemplateMixin V :=
  self.render

/-- Construction of a concrete subclass instance.  The class defines no
constructor of its own, so Python's default object construction
applies: it stores nothing and checks no attribute, hence it always
succeeds, whatever the attribute configuration. -/
def TemplateMixin.new {V : Type} (t : AttrRead String)
    (c : Option (List (String × V))) (x : List (String × V)) :
    Except PyExc (TemplateMixin V) :=
  Except.ok ⟨t, c, x⟩

/-- Python's `hasattr(self, 'template')` notion of the `template`
attribute being set: the lookup does not raise `AttributeError`. -/
def TemplateMixin.templateIsSet {V : Type} (self : TemplateMixin V) :
    Bool :=
  match self.templateAttr with
  | AttrRead.value _ => true
  | AttrRead.absent => false
  | AttrRead.propAttrError => false

end FlaskVelox

open FlaskVelox

/-- Claim C1: for every subclass instance whose `template` attribute is
defined as the string `T`, reading the resolution property `_template`
returns exactly `T`, unchanged, and leaves the instance as it was. -/
theorem c1_template_resolution {V : Type} (i : TemplateMixin V)
    (T : String) (h : i.templateAttr = AttrRead.value T) :
    i._template = (Except.ok T, i) := by
  simp [TemplateMixin._template, TemplateMixin.lookupTemplate, h]

/-- Witness for C1 at a concrete instance with `template = "home.html"`. -/
theorem c1_template_resolution_witness :
    (⟨AttrRead.value "home.html", none, []⟩ : TemplateMixin Nat)._template
      = (Except.ok "home.html", ⟨AttrRead.value "home.html", none, []⟩) :=
  c1_template_resolution ⟨AttrRead.value "home.html", none, []⟩
    "home.html" rfl

/-- Claim C2: reading `_template` (or invoking `render`) raises
`NotImplementedError('template attribute is not defined')` if and only
if the `template` attribute is not set on the instance (in Python's
`hasattr` sense: the lookup raises `AttributeError`). -/
theorem c2_missing_config_error_iff {V : Type} (i : TemplateMixin V) :
    ((i._template).1 = Except.error
        (PyExc.notImplementedError "template attribute is not defined")
      ∧ (i.render).1 = Except.error
        (PyExc.notImplementedError "template attribute is not defined"))
      ↔ i.templateIsSet = false := by
  cases h : i.templateAttr <;>
    simp [TemplateMixin._template, TemplateMixin.render,
      TemplateMixin.lookupTemplate, TemplateMixin.templateIsSet, h]

/-- Witness for C2 at a concrete instance lacking `template`. -/
theorem c2_missing_config_error_iff_witness :
    (((⟨AttrRead.absent, none, []⟩ : TemplateMixin Nat)._template).1
        = Except.error
          (PyExc.notImplementedError "template attribute is not defined")
      ∧ ((⟨AttrRead.absent, none, []⟩ : TemplateMixin Nat).render).1
        = Except.error
          (PyExc.notImplementedError "template attribute is not defined"))
      ↔ (⟨AttrRead.absent, none, []⟩ : TemplateMixin Nat).templateIsSet
          = false :=
  c2_missing_config_error_iff ⟨AttrRead.absent, none, []⟩

/-- Claim C3: for every subclass instance that defines a `context`
mapping `m`, whenever `render` calls the framework's template-rendering
function, the keyword context it forwards is exactly `m`, unchanged. -/
theorem c3_context_forwarded_unchanged {V : Type} (i : TemplateMixin V)
    (m : List (String × V)) (h : i.contextAttr = some m)
    (call : RenderCall V) (hc : (i.render).1 = Except.ok call) :
    call.context = m := by
  cases ht : i.templateAttr <;>
    simp [TemplateMixin.render, TemplateMixin._template,
      TemplateMixin.lookupTemplate, TemplateMixin.getattrContext,
      render_template, ht, h] at hc
  simp [← hc]

/-- Witness for C3 at a concrete instance with context `[("a", 1)]`. -/
theorem c3_context_forwarded_unchanged_witness :
    (⟨"home.html", [("a", 1)]⟩ : RenderCall Nat).context = [("a", 1)] :=
  c3_context_forwarded_unchanged
    ⟨AttrRead.value "home.html", some [("a", 1)], []⟩
    [("a", 1)] rfl ⟨"home.html", [("a", 1)]⟩ rfl

/-- Claim C4: for every subclass instance with no `context` attribute
defined, whenever `render` calls the framework's template-rendering
function, the context it forwards is the empty mapping. -/
theorem c4_no_context_empty_mapping {V : Type} (i : TemplateMixin V)
    (h : i.contextAttr = none)
    (call : RenderCall V) (hc : (i.render).1 = Except.ok call) :
    call.context = [] := by
  cases ht : i.templateAttr <;>
    simp [TemplateMixin.render, TemplateMixin._template,
      TemplateMixin.lookupTemplate, TemplateMixin.getattrContext,
      render_template, ht, h] at hc
  simp [← hc]

/-- Witness for C4 at a concrete instance without `context`. -/
theorem c4_no_context_empty_mapping_witness :
    (⟨"home.html", []⟩ : RenderCall Nat).context = [] :=
  c4_no_context_empty_mapping
    ⟨AttrRead.value "home.html", none, []⟩
    rfl ⟨"home.html", []⟩ rfl

/-- Claim C5: for every subclass instance and every inbound GET
request, the handler `get` returns exactly what `render` returns on the
same instance, result and final state alike. -/
theorem c5_get_delegates_to_render {V : Type} (i : TemplateMixin V)
    (r : Request) :
    i.get r = i.render :=
  rfl

/-- Claim C6: on every instance without `template` set, the
`NotImplementedError` raised during resolution propagates unchanged
through both `render` and `get`: each returns that very error (no
catching, no transformation, no empty rendering). -/
theorem c6_error_propagates_unchanged {V : Type} (i : TemplateMixin V)
    (r : Request) (h : i.templateIsSet = false) :
    (i.render).1 = Except.error
        (PyExc.notImplementedError "template attribute is not defined")
      ∧ (i.get r).1 = Except.error
        (PyExc.notImplementedError "template attribute is not defined") := by
  cases ht : i.templateAttr <;>
    simp [TemplateMixin.templateIsSet, ht] at h <;>
    simp [TemplateMixin.render, TemplateMixin.get, TemplateMixin._template,
      TemplateMixin.lookupTemplate, ht]

/-- Witness for C6 at a concrete instance lacking `template`. -/
theorem c6_error_propagates_unchanged_witness :
    (((⟨AttrRead.absent, some [("a", 1)], []⟩ : TemplateMixin Nat).render).1
        = Except.error
          (PyExc.notImplementedError "template attribute is not defined"))
      ∧ (((⟨AttrRead.absent, some [("a", 1)], []⟩ :
            TemplateMixin Nat).get ⟨[]⟩).1
        = Except.error
          (PyExc.notImplementedError "template attribute is not defined")) :=
  c6_error_propagates_unchanged
    ⟨AttrRead.absent, some [("a", 1)], []⟩ ⟨[]⟩ rfl

/-- Claim C7: constructing an instance always succeeds, whatever the
attribute configuration — in particular with `template` absent — and
the missing-configuration error surfaces only when `_template` (or
`render`) is invoked on such an instance. -/
theorem c7_checked_at_call_time_only {V : Type} (t : AttrRead String)
    (c : Option (List (String × V))) (x : List (String × V)) :
    TemplateMixin.new t c x = Except.ok ⟨t, c, x⟩
      ∧ (t = AttrRead.absent →
          ((⟨t, c, x⟩ : TemplateMixin V)._template).1 = Except.error
            (PyExc.notImplementedError "template attribute is not defined")) := by
  refine ⟨rfl, ?_⟩
  intro ht
  simp [TemplateMixin._template, TemplateMixin.lookupTemplate, ht]

/-- Witness for C7: construction with `template` absent succeeds, and
the error appears only at call time. -/
theorem c7_checked_at_call_time_only_witness :
    TemplateMixin.new AttrRead.absent
        (none : Option (List (String × Nat))) []
      = Except.ok ⟨AttrRead.absent, none, []⟩
    ∧ ((⟨AttrRead.absent, none, []⟩ : TemplateMixin Nat)._template).1
      = Except.error
        (PyExc.notImplementedError "template attribute is not defined") :=
  ⟨(c7_checked_at_call_time_only AttrRead.absent none []).1,
   (c7_checked_at_call_time_only AttrRead.absent none []).2 rfl⟩

/-- Claim C8: invoking `render` (and hence `get`) leaves the whole
instance state — `template`, `context` and every other field —
unchanged. -/
theorem c8_no_state_mutation {V : Type} (i : TemplateMixin V)
    (r : Request) :
    (i.render).2 = i ∧ (i.get r).2 = i := by
  cases ht : i.templateAttr <;>
    simp [TemplateMixin.render, TemplateMixin.get, TemplateMixin._template,
      TemplateMixin.lookupTemplate, TemplateMixin.getattrContext, ht]

/-- Claim C9: whenever the lookup of the `template` attribute raises
`AttributeError` — whether the attribute is truly absent or is a
defined property whose body raises `AttributeError` — the property
`_template` converts it into the missing-configuration
`NotImplementedError`. -/
theorem c9_any_attribute_error_converted {V : Type}
    (i : TemplateMixin V)
    (h : (i.lookupTemplate).1 = Except.error PyExc.attributeError) :
    (i._template).1 = Except.error
      (PyExc.notImplementedError "template attribute is not defined") := by
  cases ht : i.templateAttr <;>
    simp [TemplateMixin.lookupTemplate, ht] at h <;>
    simp [TemplateMixin._template, TemplateMixin.lookupTemplate, ht]

/-- Witness for C9 at an instance whose `template` is a defined
property that itself raises `AttributeError`. -/
theorem c9_any_attribute_error_converted_witness :
    (((⟨AttrRead.propAttrError, some [("a", 1)], []⟩ :
        TemplateMixin Nat)._template).1)
      = Except.error
        (PyExc.notImplementedError "template attribute is not defined") :=
  c9_any_attribute_error_converted
    ⟨AttrRead.propAttrError, some [("a", 1)], []⟩ rfl

/-- Claim C10: the arguments `render` and `get` pass to the framework's
template-rendering function are a deterministic function of the
`template` and `context` attributes alone: two instances agreeing on
those two attributes (whatever their other fields) yield identical
results, under any inbound requests. -/
theorem c10_args_deterministic {V : Type} (i j : TemplateMixin V)
    (r r' : Request)
    (ht : i.templateAttr = j.templateAttr)
    (hc : i.contextAttr = j.contextAttr) :
    (i.render).1 = (j.render).1 ∧ (i.get r).1 = (j.get r').1 := by
  cases i with
  | mk ti ci xi =>
    cases j with
    | mk tj cj xj =>
      simp only at ht hc
      subst ht
      subst hc
      cases ti <;>
        simp [TemplateMixin.render, TemplateMixin.get,
          TemplateMixin._template, TemplateMixin.lookupTemplate,
          TemplateMixin.getattrContext, render_template]

/-- Witness for C10: two instances equal on `template` and `context`
but differing in their other fields, handled under different requests,
produce the same framework call. -/
theorem c10_args_deterministic_witness :
    (((⟨AttrRead.value "home.html", some [("a", 1)], [("x", 7)]⟩ :
        TemplateMixin Nat).render).1
      = ((⟨AttrRead.value "home.html", some [("a", 1)], [("y", 9)]⟩ :
        TemplateMixin Nat).render).1)
    ∧ (((⟨AttrRead.value "home.html", some [("a", 1)], [("x", 7)]⟩ :
        TemplateMixin Nat).get ⟨[("q", "1")]⟩).1
      = ((⟨AttrRead.value "home.html", some [("a", 1)], [("y", 9)]⟩ :
        TemplateMixin Nat).get ⟨[("q", "2")]⟩).1) :=
  c10_args_deterministic
    ⟨AttrRead.value "home.html", some [("a", 1)], [("x", 7)]⟩
    ⟨AttrRead.value "home.html", some [("a", 1)], [("y", 9)]⟩
    ⟨[("q", "1")]⟩ ⟨[("q", "2")]⟩ rfl rfl
